import Mathlib

/-!
Verification of the pgzstd extension (src/zstd.c).

The C file is a thin wrapper around the zstd codec: three SQL-callable
operations (`compress`, `decompress`, `length`) plus module init/fini that
manage two process-wide codec contexts.  The codec itself (`ZSTD_*`) is an
external library treated as a black box; we model it as an abstract `Codec`
structure, and the documented guarantees of the zstd simple dictionary API
as a `CodecContract` predicate.  The wrapper functions are translated
statement by statement from src/zstd.c (the `ZSTD_CONTENTSIZE_UNKNOWN`
branch of the `#ifdef`, which is the one compiled against any modern zstd
and the one the specification describes).

Conventions of the embedding:
* a PostgreSQL `bytea` argument is an `Option Buffer` (`none` = SQL NULL,
  as tested by `PG_ARGISNULL`); a `Buffer` is the byte content
  (`VARDATA`/`VARSIZE - VARHDRSZ` marshalling is the host's job);
* `elog(ERROR, ...)` is `Except.error` carrying the message;
* `palloc`/`repalloc`/`SET_VARSIZE` are modelled by the returned buffer
  holding exactly the bytes the codec wrote: the C code allocates
  `ZSTD_compressBound` bytes, then shrinks the allocation to `out_len`
  and sets the varlena size to `out_len`, so the returned value is
  precisely the written prefix;
* the codec's `size_t`/`unsigned long long` return conventions
  (`ZSTD_isError`, `ZSTD_CONTENTSIZE_UNKNOWN = -1ULL`,
  `ZSTD_CONTENTSIZE_ERROR = -2ULL`) are modelled by `Except` and by the
  three-valued `FrameSize` result.
-/

namespace PGZstd

/-- Byte buffers; elements are byte values. -/
abbrev Buffer := List Nat

/-- Result of `ZSTD_getFrameContentSize`: a declared size, the reserved
"unknown" value, or the reserved error value. -/
inductive FrameSize where
  | size (n : Nat)
  | unknown
  | error
deriving DecidableEq

/-- Abstract model of the zstd codec functions used by src/zstd.c.
`compressUsingDict cap src dict level` and `decompressUsingDict cap src dict`
take the destination capacity and return the bytes written or the codec's
error name (`ZSTD_isError` / `ZSTD_getErrorName`).  A NULL dictionary with
length 0 and a pointer to zero bytes are the same codec input, so a
dictionary is just a `Buffer`, `[]` meaning none. -/
structure Codec where
  compressBound : Nat → Nat
  compressUsingDict : Nat → Buffer → Buffer → Int → Except String Buffer
  getFrameContentSize : Buffer → FrameSize
  decompressUsingDict : Nat → Buffer → Buffer → Except String Buffer
  validLevel : Int → Bool

/-- Line 14 of src/zstd.c: `#define DEFAULT_COMPRESSION_LEVEL 3`. -/
def DEFAULT_COMPRESSION_LEVEL : Int := 3

/-- Lines 10-12 of src/zstd.c: `#define PG_INT32_MAX 0x7fffffff`. -/
def PG_INT32_MAX : Nat := 0x7fffffff

/-- Line 59: `level = PG_ARGISNULL(2) ? DEFAULT_COMPRESSION_LEVEL : PG_GETARG_INT32(2)`. -/
def levelArg (a : Option Int) : Int :=
  match a with
  | none => DEFAULT_COMPRESSION_LEVEL
  | some l => l

/-- Lines 61-66 / 95-100: the dictionary passed to the codec is
`(NULL, 0)` when the argument is NULL, the argument bytes otherwise. -/
def dictArg (a : Option Buffer) : Buffer :=
  match a with
  | none => []
  | some d => d

/-- Embedding of `compress` (src/zstd.c lines 46-80): NULL input returns
NULL; otherwise allocate `ZSTD_compressBound(in_len)` bytes, run
`ZSTD_compress_usingDict` with that capacity, raise on codec error, shrink
the output to the bytes actually written and return it. -/
def compress (c : Codec) (arg0 arg1 : Option Buffer) (arg2 : Option Int) :
    Except String (Option Buffer) :=
  match arg0 with
  | none => Except.ok none
  | some inp =>
    match c.compressUsingDict (c.compressBound inp.length) inp (dictArg arg1) (levelArg arg2) with
    | Except.error e => Except.error ("ZSTD_compress_usingDict failed: " ++ e)
    | Except.ok written => Except.ok (some written)

/-- Embedding of `decompress` (src/zstd.c lines 83-120): NULL input returns
NULL; otherwise query the frame content size (unknown and error are both
raised), allocate that many bytes, run `ZSTD_decompress_usingDict` with that
capacity, raise on codec error, and return the bytes written.  Note the C
code has no `PG_INT32_MAX` check on this path. -/
def decompress (c : Codec) (arg0 arg1 : Option Buffer) :
    Except String (Option Buffer) :=
  match arg0 with
  | none => Except.ok none
  | some inp =>
    match c.getFrameContentSize inp with
    | FrameSize.unknown => Except.error "ZSTD_getFrameContentSize returned unknown"
    | FrameSize.error => Except.error "ZSTD_getFrameContentSize failed"
    | FrameSize.size n =>
      match c.decompressUsingDict n inp (dictArg arg1) with
      | Except.error e => Except.error ("ZSTD_decompress_usingDict failed: " ++ e)
      | Except.ok written => Except.ok (some written)

/-- Embedding of `length` (src/zstd.c lines 123-147): NULL input returns
NULL; an unknown frame content size returns NULL; a size-query error is
raised; a declared size above `PG_INT32_MAX` is raised (overflow guard);
otherwise the declared size is returned as an int32. -/
def length (c : Codec) (arg0 : Option Buffer) : Except String (Option Int) :=
  match arg0 with
  | none => Except.ok none
  | some inp =>
    match c.getFrameContentSize inp with
    | FrameSize.unknown => Except.ok none
    | FrameSize.error => Except.error "ZSTD_getFrameContentSize failed"
    | FrameSize.size n =>
      if PG_INT32_MAX < n then
        Except.error "ZSTD_getDecompressedSize returned value greater than PG_INT32_MAX"
      else
        Except.ok (some (Int.ofNat n))

/-- Documented contract of the zstd simple dictionary API, as the spec
assumes it (§1: the codec is "a trusted black box with a documented
contract"):
* compression cannot fail when the destination capacity is at least
  `ZSTD_compressBound(srcSize)` and the level is valid;
* a successful compression writes a non-empty frame, no longer than the
  capacity, whose header declares the source length as its content size;
* decompressing a produced frame with the same dictionary and a capacity
  equal to the declared content size restores the source exactly. -/
structure CodecContract (c : Codec) : Prop where
  compress_ok : ∀ cap src dict level, c.validLevel level = true →
    c.compressBound src.length ≤ cap →
    ∃ out, c.compressUsingDict cap src dict level = Except.ok out
  compress_frame : ∀ cap src dict level out,
    c.compressUsingDict cap src dict level = Except.ok out →
    c.getFrameContentSize out = FrameSize.size src.length ∧
      0 < out.length ∧ out.length ≤ cap
  round_trip : ∀ cap src dict level out,
    c.compressUsingDict cap src dict level = Except.ok out →
    c.decompressUsingDict src.length out dict = Except.ok src

/-! ### Module lifecycle (src/zstd.c lines 16-17, 25-43)

The two static context pointers and the set of live codec allocations.
Pointer value 0 is NULL; the statics start out zero-initialized.  Freeing a
live allocation removes it; `ZSTD_freeCCtx`/`ZSTD_freeDCtx` on NULL is a
documented no-op; freeing a pointer that is neither NULL nor live is
undefined behavior (a double free), modelled as `none`. -/

structure ZState where
  cctx : Nat
  dctx : Nat
  live : List Nat
  next : Nat
deriving DecidableEq

/-- Process start: both statics NULL, nothing allocated. -/
def initialState : ZState := ⟨0, 0, [], 1⟩

/-- `ZSTD_createCCtx`/`ZSTD_createDCtx`, modelled as always returning a
fresh non-NULL handle (the allocation-failure branch is `elog(FATAL)`,
which aborts the process before any further call). -/
def createCtx (s : ZState) : Nat × ZState :=
  (s.next, { s with live := s.next :: s.live, next := s.next + 1 })

/-- `ZSTD_freeCCtx`/`ZSTD_freeDCtx` on pointer `p`: no-op on NULL, releases
a live handle, undefined behavior (double free) otherwise. -/
def freeCtx (s : ZState) (p : Nat) : Option ZState :=
  if p = 0 then some s
  else if p ∈ s.live then some { s with live := s.live.erase p }
  else none

/-- Embedding of `_PG_init` (lines 25-34): allocate the compressor context
into `cctx`, then the decompressor context into `dctx`. -/
def _PG_init (s : ZState) : ZState :=
  let r1 := createCtx s
  let s2 := { r1.2 with cctx := r1.1 }
  let r2 := createCtx s2
  { r2.2 with dctx := r2.1 }

/-- Embedding of `_PG_fini` (lines 36-43): `if (cctx) ZSTD_freeCCtx(cctx);
if (dctx) ZSTD_freeDCtx(dctx);`.  The static pointers `cctx` and `dctx`
are NOT reset to NULL — exactly as in the C code. -/
def _PG_fini (s : ZState) : Option ZState :=
  match (if s.cctx ≠ 0 then freeCtx s s.cctx else some s) with
  | none => none
  | some s1 =>
    if s.dctx ≠ 0 then freeCtx s1 s.dctx else some s1

/-! ### Concrete codec instances

`toyCodec` is an executable codec satisfying `CodecContract`: it prepends
the source length as a one-element header.  It exists so that every theorem
with hypotheses can be instantiated on concrete inputs.  `cexCodec` and
`errCodec` exercise the failure branches of the wrapper. -/

/-- Toy compression: store the length, then the bytes. -/
def toyCompress (cap : Nat) (src : Buffer) (_dict : Buffer) (_level : Int) :
    Except String Buffer :=
  if src.length + 1 ≤ cap then Except.ok (src.length :: src)
  else Except.error "dstSize_tooSmall"

/-- Toy decompression: check the header against the payload and capacity. -/
def toyDecompress (cap : Nat) (f : Buffer) (_dict : Buffer) :
    Except String Buffer :=
  match f with
  | [] => Except.error "srcSize_wrong"
  | n :: rest =>
    if rest.length = n ∧ n ≤ cap then Except.ok rest
    else Except.error "corruption_detected"

/-- A concrete codec satisfying the zstd contract. -/
def toyCodec : Codec where
  compressBound := fun n => n + 1
  compressUsingDict := toyCompress
  getFrameContentSize := fun f =>
    match f with
    | [] => FrameSize.error
    | n :: _ => FrameSize.size n
  decompressUsingDict := toyDecompress
  validLevel := fun _ => true

/-- A codec whose frames declare a content size above `PG_INT32_MAX` and
whose decompression call succeeds, exercising the missing overflow guard in
`decompress`. -/
def cexCodec : Codec where
  compressBound := fun n => n
  compressUsingDict := fun _ _ _ _ => Except.error "GENERIC"
  getFrameContentSize := fun _ => FrameSize.size (PG_INT32_MAX + 1)
  decompressUsingDict := fun _ _ _ => Except.ok [7]
  validLevel := fun _ => true

/-- A codec exercising the unknown-size, size-query-error and
decompression-error branches. -/
def errCodec : Codec where
  compressBound := fun n => n
  compressUsingDict := fun _ _ _ _ => Except.error "GENERIC"
  getFrameContentSize := fun f =>
    match f with
    | [] => FrameSize.unknown
    | [_] => FrameSize.error
    | _ :: _ :: _ => FrameSize.size 1
  decompressUsingDict := fun _ _ _ => Except.error "corruption_detected"
  validLevel := fun _ => true

/-- The toy codec satisfies the documented codec contract. -/
theorem toyCodec_contract : CodecContract toyCodec := by
  constructor
  · intro cap src dict level _ hcap
    refine ⟨src.length :: src, ?_⟩
    show toyCompress cap src dict level = Except.ok (src.length :: src)
    unfold toyCompress
    split
    · rfl
    · exact absurd hcap ‹¬ _›
  · intro cap src dict level out h
    replace h : toyCompress cap src dict level = Except.ok out := h
    unfold toyCompress at h
    split at h
    · cases h
      refine ⟨rfl, by simp, ?_⟩
      simpa using ‹src.length + 1 ≤ cap›
    · cases h
  · intro cap src dict level out h
    replace h : toyCompress cap src dict level = Except.ok out := h
    unfold toyCompress at h
    split at h
    · cases h
      show toyDecompress src.length (src.length :: src) dict = Except.ok src
      simp [toyDecompress]
    · cases h

/-! ### Inversion helpers -/

/-- A successful `compress` on a present input means the codec call at
capacity `compressBound` succeeded and the result is its written bytes. -/
theorem compress_ok_inv (c : Codec) (b : Buffer) (d : Option Buffer) (l : Option Int)
    (r : Option Buffer) (h : compress c (some b) d l = Except.ok r) :
    ∃ w, r = some w ∧
      c.compressUsingDict (c.compressBound b.length) b (dictArg d) (levelArg l) =
        Except.ok w := by
  simp only [compress] at h
  split at h
  · exact Except.noConfusion h
  · rename_i w heq
    injection h with h2
    exact ⟨w, h2.symm, heq⟩

/-- A successful `decompress` on a present input means the size query
returned a declared size and the codec call at that capacity succeeded. -/
theorem decompress_ok_inv (c : Codec) (b : Buffer) (d : Option Buffer)
    (r : Option Buffer) (h : decompress c (some b) d = Except.ok r) :
    ∃ n w, c.getFrameContentSize b = FrameSize.size n ∧
      c.decompressUsingDict n b (dictArg d) = Except.ok w ∧ r = some w := by
  simp only [decompress] at h
  split at h
  · exact Except.noConfusion h
  · exact Except.noConfusion h
  · rename_i n hsize
    split at h
    · exact Except.noConfusion h
    · rename_i w heq
      injection h with h2
      exact ⟨n, w, hsize, heq, h2.symm⟩

/-! ### Claims -/

/-- Claim C1: for every non-empty byte sequence `b`, every dictionary `d`
(possibly absent) and every valid compression level `l`, decompressing the
output of `compress (b, d, l)` with the same dictionary `d` yields exactly
`b` (stated for any codec satisfying the documented zstd contract). -/
theorem C1_round_trip (c : Codec) (hc : CodecContract c) (b : Buffer) (_hb : b ≠ [])
    (d : Option Buffer) (l : Int) (hl : c.validLevel l = true) :
    ∃ fr, compress c (some b) d (some l) = Except.ok (some fr) ∧
      decompress c (some fr) d = Except.ok (some b) := by
  obtain ⟨fr, hfr⟩ :=
    hc.compress_ok (c.compressBound b.length) b (dictArg d) (levelArg (some l)) hl
      (Nat.le_refl _)
  obtain ⟨hframe, -, -⟩ := hc.compress_frame _ _ _ _ _ hfr
  have hrt := hc.round_trip _ _ _ _ _ hfr
  refine ⟨fr, ?_, ?_⟩
  · simp only [compress]
    rw [hfr]
  · simp only [decompress, hframe, hrt]

/-- Witness for C1: the toy codec round-trips the buffer `[1, 2]` with no
dictionary at level 5 through the wrapper functions. -/
theorem C1_round_trip_w :
    ∃ fr, compress toyCodec (some [1, 2]) none (some 5) = Except.ok (some fr) ∧
      decompress toyCodec (some fr) none = Except.ok (some [1, 2]) :=
  C1_round_trip toyCodec toyCodec_contract [1, 2] (by simp) none 5 rfl

/-- Claim C5: whenever `compress` succeeds on input `b`, applying `length`
to the compressed output returns exactly `b.length`.  The hypothesis
`b.length ≤ PG_INT32_MAX` encodes the host data model: a PostgreSQL
`bytea` payload is bounded by the 30-bit varlena length field, far below
`PG_INT32_MAX`. -/
theorem C5_length_agreement (c : Codec) (hc : CodecContract c) (b : Buffer)
    (d : Option Buffer) (l : Option Int) (out : Buffer)
    (hb : b.length ≤ PG_INT32_MAX)
    (h : compress c (some b) d l = Except.ok (some out)) :
    length c (some out) = Except.ok (some (Int.ofNat b.length)) := by
  obtain ⟨w, heq, hcall⟩ := compress_ok_inv c b d l (some out) h
  injection heq with heq
  subst heq
  obtain ⟨hframe, -, -⟩ := hc.compress_frame _ _ _ _ _ hcall
  simp only [length, hframe]
  rw [if_neg (Nat.not_lt.mpr hb)]

/-- Witness for C5: compressing `[9]` with the toy codec gives `[1, 9]`,
and `length` on `[1, 9]` returns 1. -/
theorem C5_length_agreement_w :
    length toyCodec (some [1, 9]) = Except.ok (some (Int.ofNat 1)) :=
  C5_length_agreement toyCodec toyCodec_contract [9] none none [1, 9] (by decide) rfl

/-- Claim C8: a successful `compress` returns exactly the bytes the codec
wrote in the single call made at capacity `compressBound b.length` (the
worst-case bound), and that written length is within the bound — the
allocate-at-bound-then-shrink-to-fit behaviour of lines 68-78. -/
theorem C8_exact_fit (c : Codec) (hc : CodecContract c) (b : Buffer)
    (d : Option Buffer) (l : Option Int) (out : Buffer)
    (h : compress c (some b) d l = Except.ok (some out)) :
    c.compressUsingDict (c.compressBound b.length) b (dictArg d) (levelArg l) =
      Except.ok out ∧ out.length ≤ c.compressBound b.length := by
  obtain ⟨w, heq, hcall⟩ := compress_ok_inv c b d l (some out) h
  injection heq with heq
  subst heq
  exact ⟨hcall, (hc.compress_frame _ _ _ _ _ hcall).2.2⟩

/-- Witness for C8: compressing `[4]` with the toy codec returns `[1, 4]`,
which is exactly the codec's written output at capacity 2 and fits it. -/
theorem C8_exact_fit_w :
    toyCodec.compressUsingDict (toyCodec.compressBound (List.length [4])) [4]
        (dictArg none) (levelArg none) = Except.ok [1, 4] ∧
      List.length [1, 4] ≤ toyCodec.compressBound (List.length [4]) :=
  C8_exact_fit toyCodec toyCodec_contract [4] none none [1, 4] rfl

/-- Claim C9: `compress` with an absent level argument behaves exactly as
`compress` with the explicit level `DEFAULT_COMPRESSION_LEVEL = 3`. -/
theorem C9_default_level (c : Codec) (b d : Option Buffer) :
    compress c b d none = compress c b d (some 3) := rfl

/-- Claim C10: a zero-length input buffer is a present value, not absence:
`compress` on an empty buffer runs the normal algorithm and returns a
present compressed frame of positive length. -/
theorem C10_empty_input (c : Codec) (hc : CodecContract c) (d : Option Buffer)
    (l : Option Int) (hl : c.validLevel (levelArg l) = true) :
    ∃ out, compress c (some ([] : Buffer)) d l = Except.ok (some out) ∧
      0 < out.length := by
  obtain ⟨out, hout⟩ :=
    hc.compress_ok (c.compressBound (List.length ([] : Buffer))) [] (dictArg d)
      (levelArg l) hl (Nat.le_refl _)
  refine ⟨out, ?_, (hc.compress_frame _ _ _ _ _ hout).2.1⟩
  simp only [compress]
  rw [hout]

/-- Witness for C10: the toy codec compresses the empty buffer to the
one-byte frame `[0]`. -/
theorem C10_empty_input_w :
    ∃ out, compress toyCodec (some ([] : Buffer)) none none = Except.ok (some out) ∧
      0 < out.length :=
  C10_empty_input toyCodec toyCodec_contract none none rfl

/-- Counterexample for C2: with a codec that declares a content size of
`PG_INT32_MAX + 1` for the input `[0]` and decompresses it successfully,
`decompress` returns a present result instead of failing hard — the C code
has no overflow guard on the decompression path (the guard at lines
143-146 exists only in `length`). -/
theorem C2_cex :
    cexCodec.getFrameContentSize [0] = FrameSize.size (PG_INT32_MAX + 1) ∧
      PG_INT32_MAX < PG_INT32_MAX + 1 ∧
      decompress cexCodec (some [0]) none = Except.ok (some [7]) :=
  ⟨rfl, Nat.lt_succ_self _, rfl⟩

/-- Claim C2 (amended): for every input whose frame header declares a
decompressed size exceeding `PG_INT32_MAX`, the `length` operation fails
hard rather than silently truncating; `decompress` performs no such check
of its own. -/
theorem C2_amended_overflow_guard (c : Codec) (inp : Buffer) (n : Nat)
    (h : c.getFrameContentSize inp = FrameSize.size n) (hn : PG_INT32_MAX < n) :
    length c (some inp) =
      Except.error "ZSTD_getDecompressedSize returned value greater than PG_INT32_MAX" := by
  simp only [length, h]
  rw [if_pos hn]

/-- Witness for the amended C2 at the concrete oversized-frame input. -/
theorem C2_amended_overflow_guard_w :
    length cexCodec (some [0]) =
      Except.error "ZSTD_getDecompressedSize returned value greater than PG_INT32_MAX" :=
  C2_amended_overflow_guard cexCodec [0] (PG_INT32_MAX + 1) rfl (Nat.lt_succ_self _)

/-- Counterexample for C3: after a successful `_PG_init` and one
`_PG_fini`, a second `_PG_fini` frees the already-released handles again —
the static pointers are never reset to NULL, so the `if (cctx)` /
`if (dctx)` guards do not detect the release.  The double free is
undefined behavior, modelled as `none`. -/
theorem C3_cex :
    Option.bind (_PG_fini (_PG_init initialState)) _PG_fini = none := by decide

/-- Claim C3 (amended): calling shutdown without a prior successful
`_PG_init` does not crash — each handle is released only if its pointer is
non-null, so shutdown is a no-op for handles that were never allocated.
(A second shutdown after a successful init-and-shutdown, however, is a
double free, since the pointers are not cleared on release.) -/
theorem C3_amended_shutdown (s : ZState) (hc : s.cctx = 0) (hd : s.dctx = 0) :
    _PG_fini s = some s := by
  simp [_PG_fini, hc, hd]

/-- Witness for the amended C3: shutdown at process start is a safe no-op. -/
theorem C3_amended_shutdown_w : _PG_fini initialState = some initialState :=
  C3_amended_shutdown initialState rfl rfl

/-- Claim C4: an absent input yields an absent result (not an error) for
all three operations, and the result is absent only if the input is absent
(for `compress` and `decompress`), or — for `length` — exactly when the
input is absent or the declared size is unknown. -/
theorem C4_absence (c : Codec) (d : Option Buffer) (l : Option Int) (b : Buffer) :
    compress c none d l = Except.ok none ∧
    decompress c none d = Except.ok none ∧
    length c none = Except.ok none ∧
    (∀ r, compress c (some b) d l = Except.ok r → r ≠ none) ∧
    (∀ r, decompress c (some b) d = Except.ok r → r ≠ none) ∧
    (length c (some b) = Except.ok none ↔
      c.getFrameContentSize b = FrameSize.unknown) := by
  refine ⟨rfl, rfl, rfl, ?_, ?_, ?_, ?_⟩
  · intro r h
    obtain ⟨w, hw, -⟩ := compress_ok_inv c b d l r h
    simp [hw]
  · intro r h
    obtain ⟨n, w, -, -, hw⟩ := decompress_ok_inv c b d r h
    simp [hw]
  · intro h
    simp only [length] at h
    split at h
    · assumption
    · exact Except.noConfusion h
    · rename_i n hsize
      split at h
      · exact Except.noConfusion h
      · injection h with h2
        exact Option.noConfusion h2
  · intro h
    simp only [length, h]

/-- Witness for C4 on the toy codec: NULL propagates through all three
operations; a present input gives a present compression result; `length`
on the empty (invalid) frame is not absent, matching the unknown-size
characterisation. -/
theorem C4_absence_w :
    compress toyCodec none none none = Except.ok none ∧
    decompress toyCodec none none = Except.ok none ∧
    length toyCodec none = Except.ok none ∧
    (some [1, 5] : Option Buffer) ≠ none ∧
    (length toyCodec (some ([] : Buffer)) = Except.ok none ↔
      toyCodec.getFrameContentSize [] = FrameSize.unknown) :=
  ⟨(C4_absence toyCodec none none [5]).1,
   (C4_absence toyCodec none none [5]).2.1,
   (C4_absence toyCodec none none [5]).2.2.1,
   (C4_absence toyCodec none none [5]).2.2.2.1 (some [1, 5]) rfl,
   (C4_absence toyCodec none none []).2.2.2.2.2⟩

/-- Claim C6: when the frame content size is reported unknown, `decompress`
fails hard while `length` yields a present-call absent result without
error; when the size query itself errors, both fail hard. -/
theorem C6_unknown_vs_error (c : Codec) (b : Buffer) (d : Option Buffer) :
    (c.getFrameContentSize b = FrameSize.unknown →
      decompress c (some b) d =
          Except.error "ZSTD_getFrameContentSize returned unknown" ∧
        length c (some b) = Except.ok none) ∧
    (c.getFrameContentSize b = FrameSize.error →
      decompress c (some b) d = Except.error "ZSTD_getFrameContentSize failed" ∧
        length c (some b) = Except.error "ZSTD_getFrameContentSize failed") := by
  constructor
  · intro h
    exact ⟨by simp only [decompress, h], by simp only [length, h]⟩
  · intro h
    exact ⟨by simp only [decompress, h], by simp only [length, h]⟩

/-- Witness for C6: `errCodec` reports unknown on `[]` and a query error
on `[0]`; the wrapper behaves as claimed on both. -/
theorem C6_unknown_vs_error_w :
    (decompress errCodec (some ([] : Buffer)) none =
        Except.error "ZSTD_getFrameContentSize returned unknown" ∧
      length errCodec (some ([] : Buffer)) = Except.ok none) ∧
    (decompress errCodec (some [0]) none =
        Except.error "ZSTD_getFrameContentSize failed" ∧
      length errCodec (some [0]) = Except.error "ZSTD_getFrameContentSize failed") :=
  ⟨(C6_unknown_vs_error errCodec [] none).1 rfl,
   (C6_unknown_vs_error errCodec [0] none).2 rfl⟩

/-- Claim C7: a codec-reported error from the compression call or the
decompression call is surfaced immediately as a hard failure carrying the
codec's textual error description; no result value is returned in that
case (the `Except.error` result excludes any `Except.ok` payload). -/
theorem C7_codec_error_surfaced (c : Codec) (b : Buffer) (d : Option Buffer)
    (l : Option Int) (e : String) :
    (c.compressUsingDict (c.compressBound b.length) b (dictArg d) (levelArg l) =
        Except.error e →
      compress c (some b) d l =
        Except.error ("ZSTD_compress_usingDict failed: " ++ e)) ∧
    (∀ n, c.getFrameContentSize b = FrameSize.size n →
      c.decompressUsingDict n b (dictArg d) = Except.error e →
      decompress c (some b) d =
        Except.error ("ZSTD_decompress_usingDict failed: " ++ e)) := by
  constructor
  · intro h
    simp only [compress, h]
  · intro n hn h
    simp only [decompress, hn, h]

/-- Witness for C7: `errCodec` errors on both codec calls, and both
wrapper operations surface the diagnostic text as hard failures. -/
theorem C7_codec_error_surfaced_w :
    compress errCodec (some [1]) none none =
        Except.error ("ZSTD_compress_usingDict failed: " ++ "GENERIC") ∧
      decompress errCodec (some [0, 0]) none =
        Except.error ("ZSTD_decompress_usingDict failed: " ++ "corruption_detected") :=
  ⟨(C7_codec_error_surfaced errCodec [1] none none "GENERIC").1 rfl,
   (C7_codec_error_surfaced errCodec [0, 0] none none "corruption_detected").2 1 rfl rfl⟩

end PGZstd
